import Mathlib

/-!
Shallow embedding of `src/gpu_hist.py` (class `GPUHist`): the host-side
orchestration of the GPU histogramming engine.  Sample values and edge values
are modelled as exact rationals (`ℚ`), byte counts and element counts as `Nat`.
Device kernels are opaque to the host code (their CUDA source is loaded from a
file that is not part of this repository's Python sources); the contents they
deposit in the buffers that the host later reads back (`d_max_in`, `d_min_in`,
`d_hist`) are supplied as an explicit `KernelSem` parameter, and every launch is
recorded in an operation trace.
-/

attribute [local semireducible] Rat.add Rat.sub Rat.mul Rat.inv Rat.ofScientific

/-- `np.dtype(np.uint32).itemsize`: the histogram element size (`HIST_TYPE`). -/
def HIST_ITEMSIZE : Nat := 4

/-- `np.dtype(np.float64).itemsize`: the sample/edge element size for the
default `FTYPE = np.float64`. -/
def FTYPE_ITEMSIZE : Nat := 8

/-- The value of `self.edges`: either a flat caller-supplied edge array (a
single numpy array, as the benchmark driver passes), or the per-dimension list
of edge arrays that `get_hist` builds at `gpu_hist.py` lines 137-143. -/
inductive EdgesVal where
  | flat (a : List ℚ) : EdgesVal
  | perDim (a : List (List ℚ)) : EdgesVal
deriving DecidableEq

/-- Total number of scalar elements of the edge value (numpy `.nbytes` divided
by the itemsize). -/
def EdgesVal.numel : EdgesVal → Nat
  | .flat a => a.length
  | .perDim a => (a.map List.length).sum

/-- One host-side CUDA operation performed by the engine.  `clearHist` is the
body of `GPUHist.clear` (allocate a fresh zero host histogram and copy it onto
the persistent device histogram `d_hist`).  `freeDev` is a device-buffer
release; the source never performs one, the constructor exists so that its
absence from every trace is a statement about the code. -/
inductive Op where
  | clearHist : Op
  | allocDev (id : Nat) (bytes : Nat) : Op
  | copyHtoD (id : Nat) (bytes : Nat) : Op
  | copyDtoH (id : Nat) (bytes : Nat) : Op
  | launch (kernel : String) : Op
  | freeDev (id : Nat) : Op
deriving DecidableEq

/-- Is this operation a device-buffer release? -/
def Op.isFreeDev : Op → Bool
  | .freeDev _ => true
  | _ => false

/-- The kernel names launched in a trace, in order. -/
def launches (t : List Op) : List String :=
  t.filterMap (fun o => match o with | Op.launch k => some k | _ => none)

/-- Engine state (`GPUHist` instance attributes).  Host numpy arrays created by
`clear` are modelled as entries of an id-indexed heap `hostHeap`, so that the
identity of the array returned by `get_hist` is observable.  Device allocations
are the list of `(id, bytes)` pairs currently allocated on the device;
`d_hist`, allocated in `__init__`, always has device id `0`. -/
structure GPUHist where
  n_flat_bins : Nat
  no_of_dimensions : Nat
  no_of_bins : Nat
  block_dim : Nat
  edges : Option EdgesVal
  dHistContent : List Nat
  hostHistId : Option Nat
  hostHeap : List (Nat × List Nat)
  nextHostId : Nat
  devAllocs : List (Nat × Nat)
  nextDevId : Nat
  dTmpHistId : Option Nat
  grid_dim : Nat
deriving DecidableEq

/-- `GPUHist.__init__(no_of_dimensions, no_of_bins, edges)` at `gpu_hist.py`
lines 37-72 (with the default `FTYPE = np.float64`):
`self.n_flat_bins = no_of_dimensions * no_of_bins` (line 45),
`self.block_dim = (16*16, 1, 1)` (line 67), and the allocation of the
persistent device histogram `d_hist` of `n_flat_bins * itemsize(uint32)` bytes
(lines 68-69).  `mem_alloc` leaves the buffer uninitialised; it is modelled as
zeros here but `clear` overwrites it before any read. -/
def GPUHist.init (no_of_dimensions no_of_bins : Nat) (edges : Option EdgesVal) :
    GPUHist where
  n_flat_bins := no_of_dimensions * no_of_bins
  no_of_dimensions := no_of_dimensions
  no_of_bins := no_of_bins
  block_dim := 16 * 16
  edges := edges
  dHistContent := List.replicate (no_of_dimensions * no_of_bins) 0
  hostHistId := none
  hostHeap := []
  nextHostId := 0
  devAllocs := [(0, no_of_dimensions * no_of_bins * HIST_ITEMSIZE)]
  nextDevId := 1
  dTmpHistId := none
  grid_dim := 0

/-- `GPUHist.clear` (`gpu_hist.py` lines 75-78):
`self.hist = np.zeros(self.n_flat_bins, dtype=uint32)` allocates a fresh host
array, and `cuda.memcpy_htod(self.d_hist, self.hist)` zeroes the device
histogram. -/
def GPUHist.clear (g : GPUHist) : GPUHist × List Op :=
  ({ g with
      hostHistId := some g.nextHostId
      hostHeap := g.hostHeap ++ [(g.nextHostId, List.replicate g.n_flat_bins 0)]
      nextHostId := g.nextHostId + 1
      dHistContent := List.replicate g.n_flat_bins 0 },
   [Op.clearHist])

/-- Pad or truncate a list to length `n` (a `memcpy` of exactly `n` elements
out of a device buffer into a host array of `n` slots). -/
def fitTo {α : Type} (pad : α) (n : Nat) (l : List α) : List α :=
  l.take n ++ List.replicate (n - l.length) pad

/-- Elementwise sum of two histograms. -/
def addVec (a b : List Nat) : List Nat := List.zipWith (· + ·) a b

/-- Overwrite the heap entry with key `k` by `v` (a `memcpy_dtoh` into the host
array with id `k`). -/
def heapUpdate (k : Nat) (v : List Nat) (h : List (Nat × List Nat)) :
    List (Nat × List Nat) :=
  h.map (fun p => if p.1 = k then (k, v) else p)

/-- Exact-arithmetic model of `np.arange(start, stop, step)` for the float
`arange` at `gpu_hist.py` line 141: `max(0, ceil((stop-start)/step))` values
`start + i*step` (numpy computes the length by this very formula). -/
def ratArange (start stop step : ℚ) : List ℚ :=
  if 0 < step then
    (List.range ((stop - start) / step).ceil.toNat).map
      (fun i => start + (i : ℚ) * step)
  else []

/-- What the opaque device kernels leave in the buffers the host reads back:
`maxOut`/`minOut` are the contents of `d_max_in`/`d_min_in` after
`max_min_reduce`, and `blockTotals` the per-bin totals of the block-local
histograms that `histogram_final_accum` folds into `d_hist`.

Modelled from the spec: the CUDA kernel sources
(`gpu_hist/histogram_atomics.cu`) are not in the repository's Python sources;
per the spec, the final accumulation kernel "sums that bin's value across all
`n_blocks` local histograms into the final histogram via a plain ... addition",
i.e. it adds the block totals into the (previously zeroed) `d_hist`. -/
structure KernelSem where
  maxOut : List ℚ
  minOut : List ℚ
  blockTotals : List Nat
deriving DecidableEq

/-- Result of a `get_hist` call: the updated engine, the returned host
histogram (value and host-array id), the returned edges, and the trace of
device operations performed. -/
structure GHResult where
  engine : GPUHist
  hist : List Nat
  histId : Option Nat
  edgesOut : Option EdgesVal
  trace : List Op
deriving DecidableEq

/-- `GPUHist.get_hist(n_events, shared)` (`gpu_hist.py` lines 82-145).
`n_events` is — as in the source — the flat sample array (length
`events * dimensions`); `shared` is the flag the caller passes.  Steps, in
source order: `self.clear()`; allocate `d_events` of `n_events.nbytes` and copy
the samples; `dx, mx = divmod(len(n_events), self.block_dim[0])` and
`self.grid_dim = (dx + (mx>0), 1)`; allocate `self.d_tmp_hist` of
`n_flat_bins * grid_dim[0]` histogram elements; if `self.edges is None`,
allocate `d_max_in`/`d_min_in` (`no_of_dimensions` FTYPE elements each) and
launch `max_min_reduce` then `histogram_gmem_atomics`, else allocate
`d_edges_in` of `(n_flat_bins + 1)` FTYPE elements, copy `self.edges` into it
and launch `histogram_gmem_atomics_with_edges`; launch `histogram_final_accum`;
copy `d_hist` back into `self.hist`; if `self.edges is None`, read back
`d_max_in`/`d_min_in` and set `self.edges` to the per-dimension arrays
`np.arange(min_in[d], max_in[d] + 1, (max_in[d] - min_in[d]) / no_of_bins)`;
return `self.hist, self.edges`.  No buffer is ever freed.

Allocation and launch success is modelled as unconditional.  This is faithful
whenever every `mem_alloc` receives a positive byte size and the grid has at
least one block — i.e. for calls with a non-empty sample buffer on an engine
with `n_flat_bins ≥ 1` — since a zero-byte `mem_alloc` raises in the driver;
theorems about degenerate calls must stay out of that region. -/
def GPUHist.get_hist (g : GPUHist) (n_events : List ℚ) (shared : Bool)
    (sem : KernelSem) : GHResult :=
  let g1 := (g.clear).1
  let eventsBytes := n_events.length * FTYPE_ITEMSIZE
  let dEventsId := g1.nextDevId
  let g2 := { g1 with
    devAllocs := g1.devAllocs ++ [(dEventsId, eventsBytes)]
    nextDevId := g1.nextDevId + 1 }
  let dx := n_events.length / g2.block_dim
  let mx := n_events.length % g2.block_dim
  let grid := dx + (if 0 < mx then 1 else 0)
  let g3 := { g2 with grid_dim := grid }
  let tmpBytes := g3.n_flat_bins * grid * HIST_ITEMSIZE
  let dTmpId := g3.nextDevId
  let g4 := { g3 with
    devAllocs := g3.devAllocs ++ [(dTmpId, tmpBytes)]
    nextDevId := g3.nextDevId + 1
    dTmpHistId := some dTmpId }
  let pre := (g.clear).2 ++
    [Op.allocDev dEventsId eventsBytes, Op.copyHtoD dEventsId eventsBytes,
     Op.allocDev dTmpId tmpBytes]
  match g4.edges with
  | none =>
      let mmBytes := g4.no_of_dimensions * FTYPE_ITEMSIZE
      let dMaxId := g4.nextDevId
      let dMinId := g4.nextDevId + 1
      let g5 := { g4 with
        devAllocs := g4.devAllocs ++ [(dMaxId, mmBytes), (dMinId, mmBytes)]
        nextDevId := g4.nextDevId + 2 }
      let afterAccum := addVec g5.dHistContent
        (fitTo 0 g5.n_flat_bins sem.blockTotals)
      let g6 := { g5 with dHistContent := afterAccum }
      let hid := g6.hostHistId.getD 0
      let g7 := { g6 with hostHeap := heapUpdate hid afterAccum g6.hostHeap }
      let max_in := fitTo (0 : ℚ) g7.no_of_dimensions sem.maxOut
      let min_in := fitTo (0 : ℚ) g7.no_of_dimensions sem.minOut
      let newEdges := (List.range g7.no_of_dimensions).map (fun d =>
        ratArange (min_in.getD d 0) (max_in.getD d 0 + 1)
          ((max_in.getD d 0 - min_in.getD d 0) / (g7.no_of_bins : ℚ)))
      let g8 := { g7 with edges := some (EdgesVal.perDim newEdges) }
      { engine := g8
        hist := afterAccum
        histId := g8.hostHistId
        edgesOut := g8.edges
        trace := pre ++
          [Op.allocDev dMaxId mmBytes, Op.allocDev dMinId mmBytes,
           Op.launch "max_min_reduce", Op.launch "histogram_gmem_atomics",
           Op.launch "histogram_final_accum",
           Op.copyDtoH 0 (g8.n_flat_bins * HIST_ITEMSIZE),
           Op.copyDtoH dMaxId mmBytes, Op.copyDtoH dMinId mmBytes] }
  | some e =>
      let edgesBytes := (g4.n_flat_bins + 1) * FTYPE_ITEMSIZE
      let dEdgesId := g4.nextDevId
      let g5 := { g4 with
        devAllocs := g4.devAllocs ++ [(dEdgesId, edgesBytes)]
        nextDevId := g4.nextDevId + 1 }
      let afterAccum := addVec g5.dHistContent
        (fitTo 0 g5.n_flat_bins sem.blockTotals)
      let g6 := { g5 with dHistContent := afterAccum }
      let hid := g6.hostHistId.getD 0
      let g7 := { g6 with hostHeap := heapUpdate hid afterAccum g6.hostHeap }
      { engine := g7
        hist := afterAccum
        histId := g7.hostHistId
        edgesOut := g7.edges
        trace := pre ++
          [Op.allocDev dEdgesId edgesBytes,
           Op.copyHtoD dEdgesId (e.numel * FTYPE_ITEMSIZE),
           Op.launch "histogram_gmem_atomics_with_edges",
           Op.launch "histogram_final_accum",
           Op.copyDtoH 0 (g7.n_flat_bins * HIST_ITEMSIZE)] }

/-- Claim C1: the claim says the flat histogram buffer has length
`n_bins ^ n_dimensions`.  Evaluating the code at `no_of_dimensions = 2`,
`no_of_bins = 3`: `__init__` sets `n_flat_bins = 2 * 3 = 6`, allocates a
24-byte (6-element) device final histogram, and `get_hist` returns a 6-element
histogram — but `n_bins ^ n_dimensions = 3 ^ 2 = 9`. -/
theorem C1_code_eval :
    (GPUHist.init 2 3 none).n_flat_bins = 2 * 3 ∧
    (GPUHist.init 2 3 none).devAllocs = [(0, 6 * HIST_ITEMSIZE)] ∧
    ((GPUHist.init 2 3 (some (EdgesVal.flat (List.replicate 8 0)))).get_hist
        [0, 0] false ⟨[], [], []⟩).hist.length = 2 * 3 ∧
    (GPUHist.init 2 3 none).n_flat_bins ≠ 3 ^ 2 := by
  decide

/-- Claim C2: the claim says the edges-given binning kernel is selected by the
`shared` flag.  Evaluating the code at an engine with caller-supplied edges and
`shared = True`: only `histogram_gmem_atomics_with_edges` is launched;
`histogram_smem_atomics_with_edges` is never launched. -/
theorem C2_code_eval :
    launches ((GPUHist.init 1 2 (some (EdgesVal.flat [0, 1, 2]))).get_hist
        [0, 1] true ⟨[], [], []⟩).trace
      = ["histogram_gmem_atomics_with_edges", "histogram_final_accum"] ∧
    "histogram_smem_atomics_with_edges" ∉
      launches ((GPUHist.init 1 2 (some (EdgesVal.flat [0, 1, 2]))).get_hist
        [0, 1] true ⟨[], [], []⟩).trace := by
  decide

/-- Claim C3 counterexample: an invalid configuration with a non-empty sample
buffer — engine for 2 dimensions and 3 bins whose supplied edge array is a
malformed, descending 3-entry list where `n_dimensions * (n_bins+1) = 8`
ascending entries are required — and 4 sample values (2 events).  `get_hist`
reports no configuration error: it runs to completion, launching the binning
and accumulation kernels, and leaves four live device allocations at return
(the d_hist of `__init__` plus d_events, d_tmp_hist and d_edges_in; every
allocation here has a positive byte size, and the grid has 1 block, so each
modelled step is one the driver carries out). -/
theorem C3_counterexample :
    launches ((GPUHist.init 2 3 (some (EdgesVal.flat [5, 4, 3]))).get_hist
        [0, 0, 0, 0] false ⟨[], [], []⟩).trace
      = ["histogram_gmem_atomics_with_edges", "histogram_final_accum"] ∧
    ((GPUHist.init 2 3 (some (EdgesVal.flat [5, 4, 3]))).get_hist
        [0, 0, 0, 0] false ⟨[], [], []⟩).engine.devAllocs.length = 4 := by
  decide

/-- Claim C3 amended: `get_hist` performs no input validation.  For every
engine with at least one dimension and one bin and every call with a non-empty
sample buffer — in particular whatever edge array was supplied, malformed or
not — no configuration error is reported: the call launches the final
accumulation kernel and adds at least two device allocations.  (The binders
keep the statement inside the region where the embedding is faithful: a
zero-event call is not validated either, but it dies at the zero-byte
`cuda.mem_alloc(n_events.nbytes)` of `gpu_hist.py:86` with a driver error
rather than a synchronously reported configuration error.) -/
theorem C3_amended (dims bins : Nat) (e : Option EdgesVal) (q : ℚ)
    (rest : List ℚ) (sh : Bool) (sem : KernelSem) :
    "histogram_final_accum" ∈
      launches ((GPUHist.init (dims + 1) (bins + 1) e).get_hist (q :: rest)
        sh sem).trace ∧
    (GPUHist.init (dims + 1) (bins + 1) e).devAllocs.length + 2 ≤
      ((GPUHist.init (dims + 1) (bins + 1) e).get_hist (q :: rest)
        sh sem).engine.devAllocs.length := by
  cases e <;>
    simp [GPUHist.get_hist, GPUHist.clear, GPUHist.init, launches]

/-- Claim C4 counterexample: a concrete call on `GPUHist(1, 3)` without edges.
At return, all five device allocations — `d_hist` (id 0, from `__init__`),
`d_events` (id 1), `d_tmp_hist` (id 2), `d_max_in` (id 3), `d_min_in` (id 4) —
are still allocated, and the per-block local-histogram buffer is retained on
the engine as `self.d_tmp_hist`; nothing was released before the call
returned. -/
theorem C4_counterexample :
    ((GPUHist.init 1 3 none).get_hist [0, 1, 2] false
        ⟨[2], [0], [1, 1, 1]⟩).engine.devAllocs
      = [(0, 12), (1, 24), (2, 12), (3, 8), (4, 8)] ∧
    ((GPUHist.init 1 3 none).get_hist [0, 1, 2] false
        ⟨[2], [0], [1, 1, 1]⟩).engine.dTmpHistId = some 2 ∧
    ((GPUHist.init 1 3 none).get_hist [0, 1, 2] false
        ⟨[2], [0], [1, 1, 1]⟩).trace.all (fun o => !o.isFreeDev) = true := by
  decide

set_option maxRecDepth 8000 in
/-- Claim C8 counterexample: engine with 2 dimensions, flat sample buffer of
512 values (256 events).  The code computes `grid_dim = 2` from the flat buffer
length, while the claim's `ceil(n_events / 256) = ceil(256 / 256) = 1`. -/
theorem C8_counterexample :
    ((GPUHist.init 2 3 (some (EdgesVal.flat (List.replicate 8 0)))).get_hist
        (List.replicate 512 0) false ⟨[], [], []⟩).engine.grid_dim = 2 ∧
    ((GPUHist.init 2 3 (some (EdgesVal.flat (List.replicate 8 0)))).get_hist
        (List.replicate 512 0) false ⟨[], [], []⟩).engine.grid_dim
      ≠ ((List.replicate 512 (0 : ℚ)).length / 2 + 255) / 256 := by
  decide

/-- Claim C6: the claim says the device edge buffer can hold the
`n_dimensions * (n_bins + 1)` caller-supplied edge values.  Evaluating the
code at `n_dimensions = 2`, `n_bins = 3` with the required 8 edge values:
`d_edges_in` (device id 3) is allocated with
`(n_flat_bins + 1) * 8 = 56` bytes (7 elements), yet the host-to-device copy
transfers `8 * 8 = 64` bytes — past the end of the allocation. -/
theorem C6_code_eval :
    Op.allocDev 3 56 ∈
      ((GPUHist.init 2 3 (some (EdgesVal.flat [0, 1, 2, 3, 10, 11, 12, 13]))).get_hist
        [0, 0, 0, 0] false ⟨[], [], []⟩).trace ∧
    Op.copyHtoD 3 64 ∈
      ((GPUHist.init 2 3 (some (EdgesVal.flat [0, 1, 2, 3, 10, 11, 12, 13]))).get_hist
        [0, 0, 0, 0] false ⟨[], [], []⟩).trace ∧
    (56 : Nat) < 64 := by
  decide

/-- Claim C7: the claim says internally computed edges are exactly the
`n_bins + 1` values `min + k * (max - min) / n_bins`.  Evaluating the code at
one dimension with reduction extrema `min = 0`, `max = 1` and `n_bins = 2`:
`np.arange(min, max + 1, (max - min) / n_bins)` yields the four values
`[0, 1/2, 1, 3/2]`, not the three values `[0, 1/2, 1]` the claim requires
(and `3/2` lies beyond `max`). -/
theorem C7_code_eval :
    ((GPUHist.init 1 2 none).get_hist [0, 1] false ⟨[1], [0], [1, 1]⟩).edgesOut
      = some (EdgesVal.perDim [[0, 1/2, 1, 3/2]]) ∧
    (List.range (2 + 1)).map (fun k => (0 : ℚ) + k * ((1 - 0) / 2))
      = [0, 1/2, 1] ∧
    [(0 : ℚ), 1/2, 1, 3/2] ≠ [0, 1/2, 1] := by
  decide

/-- Claim C5 counterexample: engine built without edges; first call's samples
have extrema 1 and 3 (2 bins, edges `[1, 2, 3]`).  The second call — whose own
samples have extrema 10 and 20 — launches no `max_min_reduce` and returns the
first call's stored edges `[[1, 2, 3]]` instead of edges derived from its own
samples. -/
theorem C5_counterexample :
    "max_min_reduce" ∉
      launches (((GPUHist.init 1 2 none).get_hist [1, 3] false
          ⟨[3], [1], [1, 1]⟩).engine.get_hist [10, 20] false
          ⟨[20], [10], [2, 0]⟩).trace ∧
    (((GPUHist.init 1 2 none).get_hist [1, 3] false
        ⟨[3], [1], [1, 1]⟩).engine.get_hist [10, 20] false
        ⟨[20], [10], [2, 0]⟩).edgesOut
      = some (EdgesVal.perDim [[1, 2, 3]]) := by
  decide

theorem takeAppendSelf {α : Type} (l t : List α) : (l ++ t).take l.length = l := by
  induction l with
  | nil => simp
  | cons a l ih => simp [ih]

/-- Claim C4 amended: `get_hist` releases nothing — its trace contains no
device-buffer release, every device allocation alive before the call is still
alive (an initial segment of the allocation list) afterwards together with at
least three new per-call allocations, and the per-block local-histogram buffer
handle is retained on the engine as `self.d_tmp_hist` past the return. -/
theorem C4_amended (g : GPUHist) (n_events : List ℚ) (shared : Bool)
    (sem : KernelSem) :
    ((g.get_hist n_events shared sem).trace.all (fun o => !o.isFreeDev)) = true ∧
    (g.get_hist n_events shared sem).engine.devAllocs.take g.devAllocs.length
      = g.devAllocs ∧
    g.devAllocs.length + 3 ≤
      (g.get_hist n_events shared sem).engine.devAllocs.length ∧
    (g.get_hist n_events shared sem).engine.dTmpHistId
      = some (g.nextDevId + 1) := by
  cases hE : g.edges <;>
    simp [GPUHist.get_hist, GPUHist.clear, Op.isFreeDev, hE, takeAppendSelf]

/-- Claim C5 amended: on an engine constructed without edges, the first
`get_hist` call launches `max_min_reduce` and stores the edges it computes from
its own extrema on the engine (`self.edges`); the immediately following call
launches no `max_min_reduce` and returns the stored first-call edges unchanged
instead of edges derived from its own samples. -/
theorem C5_amended (dims bins : Nat) (s1 s2 : List ℚ) (sh1 sh2 : Bool)
    (sem1 sem2 : KernelSem) :
    "max_min_reduce" ∈
      launches ((GPUHist.init dims bins none).get_hist s1 sh1 sem1).trace ∧
    (∃ e, ((GPUHist.init dims bins none).get_hist s1 sh1 sem1).engine.edges
        = some (EdgesVal.perDim e)) ∧
    "max_min_reduce" ∉
      launches ((((GPUHist.init dims bins none).get_hist s1 sh1
          sem1).engine).get_hist s2 sh2 sem2).trace ∧
    ((((GPUHist.init dims bins none).get_hist s1 sh1 sem1).engine).get_hist
        s2 sh2 sem2).edgesOut
      = ((GPUHist.init dims bins none).get_hist s1 sh1 sem1).engine.edges := by
  simp [GPUHist.get_hist, GPUHist.clear, GPUHist.init, launches]

theorem gridDimCeil (n : Nat) :
    n / 256 + (if 0 < n % 256 then 1 else 0) = (n + 255) / 256 := by
  by_cases h : 0 < n % 256 <;> simp [h]
  all_goals omega

/-- Claim C8 amended: the block size is 256 threads, and the grid size is
`ceil(L / 256)` where `L` is the length of the flat sample buffer passed to
`get_hist` (`n_events * n_dimensions` values), not the event count. -/
theorem C8_amended (dims bins : Nat) (e : Option EdgesVal) (n_events : List ℚ)
    (sh : Bool) (sem : KernelSem) :
    (GPUHist.init dims bins e).block_dim = 256 ∧
    ((GPUHist.init dims bins e).get_hist n_events sh sem).engine.grid_dim
      = (n_events.length + 255) / 256 := by
  cases e <;>
    simp [GPUHist.get_hist, GPUHist.clear, GPUHist.init, gridDimCeil]

/-- Claim C9: confirmed.  Every `get_hist` call begins with `self.clear()`
(the zeroing of the final histogram buffer is the very first operation of the
trace, so it precedes every sample transfer and every kernel launch); `clear`
sets the device histogram to all zeros; and the entire result of a call is
independent of whatever the device histogram contained when the call started,
so counts from earlier calls never reach the returned histogram. -/
theorem C9_zeroed_first (g : GPUHist) (n_events : List ℚ) (shared : Bool)
    (sem : KernelSem) (c1 c2 : List Nat) :
    (g.get_hist n_events shared sem).trace.head? = some Op.clearHist ∧
    (g.clear).1.dHistContent = List.replicate g.n_flat_bins 0 ∧
    ({ g with dHistContent := c1 } : GPUHist).get_hist n_events shared sem
      = ({ g with dHistContent := c2 } : GPUHist).get_hist n_events shared sem := by
  refine ⟨?_, rfl, ?_⟩
  · cases hE : g.edges <;> simp [GPUHist.get_hist, GPUHist.clear, hE]
  · cases hE : g.edges <;> simp [GPUHist.get_hist, GPUHist.clear, hE]

theorem lookup_append_single_ne {k : Nat} {v : List Nat}
    (h : List (Nat × List Nat)) (j : Nat) (hjk : (j == k) = false) :
    List.lookup j (h ++ [(k, v)]) = List.lookup j h := by
  induction h with
  | nil => simp [List.lookup_cons, hjk]
  | cons a t ih =>
      rcases a with ⟨k1, v1⟩
      simp [List.lookup_cons, ih]

theorem lookup_heapUpdate_ne {k : Nat} {v : List Nat}
    (h : List (Nat × List Nat)) (j : Nat) (hjk : j ≠ k) :
    List.lookup j (heapUpdate k v h) = List.lookup j h := by
  simp only [heapUpdate]
  induction h with
  | nil => simp
  | cons a t ih =>
      rcases a with ⟨k1, v1⟩
      by_cases h1 : k1 = k
      · subst h1
        simp [List.lookup_cons, beq_eq_false_iff_ne.mpr hjk, ih]
      · simp [List.lookup_cons, h1, ih]

/-- Claim C10: confirmed.  Each `get_hist` call returns the host array that its
own `clear` freshly allocated (id `nextHostId` of the engine at call entry);
the id returned by the next call on the same engine is different, and the next
call leaves the heap entry of the first call's array untouched, so the array
returned by one call is never the same object as — and is never mutated by — a
later call. -/
theorem C10_fresh_result (g : GPUHist) (s1 s2 : List ℚ) (sh1 sh2 : Bool)
    (sem1 sem2 : KernelSem) :
    (g.get_hist s1 sh1 sem1).histId = some g.nextHostId ∧
    ((g.get_hist s1 sh1 sem1).engine.get_hist s2 sh2 sem2).histId
      = some (g.nextHostId + 1) ∧
    (g.get_hist s1 sh1 sem1).histId
      ≠ ((g.get_hist s1 sh1 sem1).engine.get_hist s2 sh2 sem2).histId ∧
    List.lookup g.nextHostId
        ((g.get_hist s1 sh1 sem1).engine.get_hist s2 sh2 sem2).engine.hostHeap
      = List.lookup g.nextHostId (g.get_hist s1 sh1 sem1).engine.hostHeap := by
  refine ⟨?_, ?_, ?_, ?_⟩
  · cases hE : g.edges <;> simp [GPUHist.get_hist, GPUHist.clear, hE]
  · cases hE : g.edges <;> simp [GPUHist.get_hist, GPUHist.clear, hE]
  · cases hE : g.edges <;> simp [GPUHist.get_hist, GPUHist.clear, hE]
  · cases hE : g.edges <;>
      simp only [GPUHist.get_hist, GPUHist.clear, hE, Option.getD_some] <;>
      rw [lookup_heapUpdate_ne _ _ (by omega),
        lookup_append_single_ne _ _ (by simp)]
